import Mathlib

/-!
Verification of the mcp-graphdb server core (src/index.ts) against its
specification.  Strings are modelled as lists of characters; JavaScript
string primitives (includes, indexOf, substring) are translated to
executable list functions.  Remote query execution is an external
collaborator, so every handler is parameterised by an executor function
returning an exception monad value.
-/

set_option maxRecDepth 8000

namespace GraphDB

/-- Strings of the embedded program, as lists of characters. -/
abbrev Str : Type := List Char

/-- Coerce a Lean string literal to the embedded string type. -/
def str (s : String) : Str := s.data

/-- Model of JavaScript String.prototype.indexOf for a substring:
first index at which the needle occurs in the haystack, none when the
needle does not occur (JS returns -1 there). -/
def indexOfSub (needle : Str) : Str → Option Nat
  | [] => if needle.isPrefixOf ([] : Str) then some 0 else none
  | c :: t =>
    if needle.isPrefixOf (c :: t) then some 0
    else (indexOfSub needle t).map (· + 1)

/-- Soundness of indexOfSub: a first occurrence at index i is found. -/
theorem indexOfSub_eq_some_of_first (needle h : Str) :
    ∀ i : Nat, needle.isPrefixOf (h.drop i) = true →
      (∀ j, j < i → needle.isPrefixOf (h.drop j) = false) →
      indexOfSub needle h = some i := by
  induction h with
  | nil =>
    intro i h1 h2
    cases i with
    | zero => simp only [List.drop_nil] at h1; simp [indexOfSub, h1]
    | succ k =>
      have := h2 0 (Nat.succ_pos k)
      simp only [List.drop_nil] at h1 this
      rw [h1] at this
      exact absurd this (by simp)
  | cons c t ih =>
    intro i h1 h2
    cases i with
    | zero =>
      simp only [List.drop_zero] at h1
      simp [indexOfSub, h1]
    | succ k =>
      have h0 : needle.isPrefixOf (c :: t) = false := by
        have := h2 0 (Nat.succ_pos k)
        simpa using this
      have ht : indexOfSub needle t = some k := by
        apply ih
        · simpa [List.drop_succ_cons] using h1
        · intro j hj
          have := h2 (j + 1) (Nat.succ_lt_succ hj)
          simpa [List.drop_succ_cons] using this
      simp [indexOfSub, h0, ht]

/-- Completeness of indexOfSub: no occurrence anywhere means no index. -/
theorem indexOfSub_eq_none_of_no_occurrence (needle h : Str)
    (hno : ∀ j, needle.isPrefixOf (h.drop j) = false) :
    indexOfSub needle h = none := by
  induction h with
  | nil =>
    have := hno 0
    simp only [List.drop_nil] at this
    simp [indexOfSub, this]
  | cons c t ih =>
    have h0 : needle.isPrefixOf (c :: t) = false := by simpa using hno 0
    have ht : indexOfSub needle t = none := by
      apply ih
      intro j
      simpa [List.drop_succ_cons] using hno (j + 1)
    simp [indexOfSub, h0, ht]

/-- Model of JavaScript String.prototype.includes: substring test,
defined as JS defines it, through indexOf. -/
def includesSub (needle h : Str) : Bool := (indexOfSub needle h).isSome

/-- Graph-scoping rewriter, translated from the sparqlQuery branch of
the CallToolRequestSchema handler (src/index.ts lines 458-469): when the
graph argument is truthy (present and nonempty) and the query text
contains neither the source-scoping keyword nor the graph-pattern
keyword as a substring, a source-scoping clause naming the graph is
spliced in at the index of the first occurrence of the WHERE keyword,
but only when that index is strictly positive (the source tests
insertPoint > 0, which also rejects index 0); otherwise the query is
returned unchanged. -/
def rewrite (q : Str) (g : Option Str) : Str :=
  match g with
  | none => q
  | some gi =>
    if gi = [] then q
    else if includesSub (str "FROM <") q || includesSub (str "GRAPH <") q then q
    else
      match indexOfSub (str "WHERE") q with
      | some i =>
        if 0 < i then
          q.take i ++ str "FROM <" ++ gi ++ str "> " ++ q.drop i
        else q
      | none => q

/-- C3 (counterexample): for the query text that begins with the WHERE
keyword (first occurrence at index 0) and graph IRI urn:g, the guard
conditions of the claim hold, yet the rewriter returns the query
unchanged instead of splicing the source-scoping clause before the
WHERE keyword as the claim states. -/
theorem c3_counterexample :
    includesSub (str "FROM <") (str "WHERE \x7b ?s ?p ?o \x7d") = false ∧
    includesSub (str "GRAPH <") (str "WHERE \x7b ?s ?p ?o \x7d") = false ∧
    (str "WHERE").isPrefixOf (str "WHERE \x7b ?s ?p ?o \x7d") = true ∧
    rewrite (str "WHERE \x7b ?s ?p ?o \x7d") (some (str "urn:g")) ≠
      str "FROM <urn:g> " ++ str "WHERE \x7b ?s ?p ?o \x7d" := by
  refine ⟨by decide, by decide, by decide, ?_⟩
  decide

/-- C3 (amended): for every query text q and every nonempty graph IRI,
when q contains neither the source-scoping keyword nor the
graph-pattern keyword as a substring: if the first occurrence of the
WHERE keyword in q is at a strictly positive index i, the rewriter
returns the prefix of q before i, then the source-scoping clause naming
the graph, then the rest of q from i on; if q has no occurrence of the
WHERE keyword, or its first occurrence is at index 0, q is returned
unchanged. -/
theorem c3_rewrite_splice (q gi : Str) (hg : gi ≠ [])
    (hf : includesSub (str "FROM <") q = false)
    (hgr : includesSub (str "GRAPH <") q = false) :
    (∀ i, 0 < i → (str "WHERE").isPrefixOf (q.drop i) = true →
      (∀ j, j < i → (str "WHERE").isPrefixOf (q.drop j) = false) →
      rewrite q (some gi) = q.take i ++ str "FROM <" ++ gi ++ str "> " ++ q.drop i) ∧
    ((∀ j, (str "WHERE").isPrefixOf (q.drop j) = false) →
      rewrite q (some gi) = q) ∧
    ((str "WHERE").isPrefixOf q = true → rewrite q (some gi) = q) := by
  refine ⟨?_, ?_, ?_⟩
  · intro i hi h1 h2
    have hidx := indexOfSub_eq_some_of_first (str "WHERE") q i h1 h2
    simp [rewrite, hg, hf, hgr, hidx, hi]
  · intro hno
    have hidx := indexOfSub_eq_none_of_no_occurrence (str "WHERE") q hno
    simp [rewrite, hg, hf, hgr, hidx]
  · intro h0
    have hidx := indexOfSub_eq_some_of_first (str "WHERE") q 0
      (by simpa using h0) (by intro j hj; exact absurd hj (Nat.not_lt_zero j))
    simp [rewrite, hg, hf, hgr, hidx]

/-- Witness for C3 (amended) at a concrete query whose WHERE keyword
first occurs at index 9. -/
theorem c3_rewrite_splice_witness :
    rewrite (str "SELECT * WHERE \x7b ?s ?p ?o \x7d") (some (str "urn:g")) =
      str "SELECT * FROM <urn:g> WHERE \x7b ?s ?p ?o \x7d" := by
  have h := (c3_rewrite_splice (str "SELECT * WHERE \x7b ?s ?p ?o \x7d") (str "urn:g")
    (by decide) (by decide) (by decide)).1 9 (by decide) (by decide) (by decide)
  exact h.trans (by decide)

/-- C4: the rewrite operation is idempotent whenever the query already
contains a source-scoping clause keyword: rewriting such a query leaves
it unchanged, so a second rewrite with the same graph agrees with the
first. -/
theorem c4_rewrite_idempotent (q : Str) (g : Option Str)
    (h : includesSub (str "FROM <") q = true) :
    rewrite (rewrite q g) g = rewrite q g := by
  have hq : rewrite q g = q := by
    cases g with
    | none => rfl
    | some gi =>
      by_cases hgi : gi = []
      · simp [rewrite, hgi]
      · simp [rewrite, hgi, h]
  rw [hq]
  exact hq

/-! Data model of SPARQL JSON results, translated from the SparqlBinding
and SparqlResults interfaces of src/index.ts. -/

/-- One RDF term of a results binding: type tag, lexical value, optional
datatype and language tag. -/
structure SparqlValue where
  type : Str
  value : Str
  datatype : Option Str
  lang : Option Str
deriving DecidableEq

/-- One row binding: a JavaScript object mapping variable names to
terms, keys in insertion order. -/
abbrev Binding : Type := List (Str × SparqlValue)

/-- JavaScript property read on a binding object; none models the
undefined result for an absent key. -/
def bindingGet : Binding → Str → Option SparqlValue
  | [], _ => none
  | (k1, v1) :: t, k => if k1 = k then some v1 else bindingGet t k

/-- A parsed query result envelope: head.vars and results.bindings. -/
structure SparqlResults where
  vars : List Str
  bindings : List Binding
deriving DecidableEq

/-- A JavaScript value stored in a composed response object: either the
undefined value or an RDF term. -/
inductive JsVal where
  | undef : JsVal
  | sval : SparqlValue → JsVal
deriving DecidableEq

/-- A composed JavaScript object, keys in insertion order. -/
abbrev Obj : Type := List (Str × JsVal)

/-- JavaScript property read on a composed object. -/
def objGet : Obj → Str → Option JsVal
  | [], _ => none
  | (k1, v1) :: t, k => if k1 = k then some v1 else objGet t k

/-- JavaScript property write: an existing key keeps its position and
takes the new value, a new key is appended, as in an object literal
where a later entry follows a spread. -/
def objSet : Obj → Str → JsVal → Obj
  | [], k, v => [(k, v)]
  | (k1, v1) :: t, k, v =>
    if k1 = k then (k1, v) :: t else (k1, v1) :: objSet t k v

/-- A property write is read back. -/
theorem objGet_objSet (o : Obj) (k : Str) (v : JsVal) :
    objGet (objSet o k v) k = some v := by
  induction o with
  | nil => simp [objSet, objGet]
  | cons kv t ih =>
    obtain ⟨k1, v1⟩ := kv
    by_cases hk : k1 = k
    · simp [objSet, objGet, hk]
    · simp [objSet, objGet, hk, ih]

/-- Spread of a binding object into a composed object literal. -/
def bindingToObj (b : Binding) : Obj := b.map (fun kv => (kv.1, JsVal.sval kv.2))

/-! Query text constants, transcribed byte for byte from the template
literals of src/index.ts, newlines and indentation included; literal
braces are written with hexadecimal escapes. -/

/-- Graph-discovery query of the ListResourcesRequestSchema handler
(src/index.ts lines 134-140). -/
def enumGraphsQuery : Str :=
  str "\n    SELECT DISTINCT ?graph\n    WHERE \x7b\n      GRAPH ?graph \x7b ?s ?p ?o \x7d\n    \x7d\n    ORDER BY ?graph\n  "

/-- Graph-listing query of the listGraphs tool branch of the
CallToolRequestSchema handler (src/index.ts lines 525-531). -/
def listGraphsToolQuery : Str :=
  str "\n      SELECT DISTINCT ?graph\n      WHERE \x7b\n        GRAPH ?graph \x7b ?s ?p ?o \x7d\n      \x7d\n      ORDER BY ?graph\n    "

/-- Class-list query (src/index.ts lines 211-228). -/
def classListQuery : Str :=
  str "\n        PREFIX rdf: <http://www.w3.org/1999/02/22-rdf-syntax-ns#>\n        PREFIX rdfs: <http://www.w3.org/2000/01/rdf-schema#>\n        PREFIX owl: <http://www.w3.org/2002/07/owl#>\n        SELECT DISTINCT ?class ?label ?comment (COUNT(?instance) as ?count)\n        WHERE \x7b\n          \x7b\n            ?class a rdfs:Class .\n          \x7d UNION \x7b\n            ?class a owl:Class .\n          \x7d\n          OPTIONAL \x7b ?instance a ?class \x7d\n          OPTIONAL \x7b ?class rdfs:label ?label \x7d\n          OPTIONAL \x7b ?class rdfs:comment ?comment \x7d\n        \x7d\n        GROUP BY ?class ?label ?comment\n        ORDER BY DESC(?count)\n      "

/-- Predicate-list query (src/index.ts lines 242-254). -/
def predicatesQuery : Str :=
  str "\n        PREFIX rdf: <http://www.w3.org/1999/02/22-rdf-syntax-ns#>\n        PREFIX rdfs: <http://www.w3.org/2000/01/rdf-schema#>\n        SELECT DISTINCT ?predicate ?label ?comment (COUNT(*) as ?usage)\n        WHERE \x7b\n          ?s ?predicate ?o .\n          OPTIONAL \x7b ?predicate rdfs:label ?label \x7d\n          OPTIONAL \x7b ?predicate rdfs:comment ?comment \x7d\n        \x7d\n        GROUP BY ?predicate ?label ?comment\n        ORDER BY DESC(?usage)\n        LIMIT 100\n      "

/-- Repository statistics query (src/index.ts lines 268-278); the
source lines SELECT and the first two aggregates end in a trailing
space. -/
def statsCountQuery : Str :=
  str "\n        PREFIX rdf: <http://www.w3.org/1999/02/22-rdf-syntax-ns#>\n        SELECT \n          (COUNT(DISTINCT ?s) as ?subjects) \n          (COUNT(DISTINCT ?p) as ?predicates) \n          (COUNT(DISTINCT ?o) as ?objects)\n          (COUNT(*) as ?triples)\n        WHERE \x7b\n          ?s ?p ?o .\n        \x7d\n      "

/-- Graph-count query of the statistics view (src/index.ts lines
283-288). -/
def graphCountQuery : Str :=
  str "\n        SELECT (COUNT(DISTINCT ?g) as ?graphs)\n        WHERE \x7b\n          GRAPH ?g \x7b ?s ?p ?o \x7d\n        \x7d\n      "

/-- Repository sample query (src/index.ts lines 311-317). -/
def sampleQuery : Str :=
  str "\n        SELECT ?subject ?predicate ?object\n        WHERE \x7b\n          ?subject ?predicate ?object\n        \x7d\n        LIMIT 50\n      "

/-- Per-graph sample query (src/index.ts lines 331-338). -/
def graphSampleQuery (graphUri : Str) : Str :=
  str "\n        SELECT ?subject ?predicate ?object\n        FROM <" ++ graphUri ++ str ">\n        WHERE \x7b\n          ?subject ?predicate ?object\n        \x7d\n        LIMIT 100\n      "

/-- Per-graph metadata query (src/index.ts lines 343-350). -/
def graphMetadataQuery (graphUri : Str) : Str :=
  str "\n        PREFIX rdf: <http://www.w3.org/1999/02/22-rdf-syntax-ns#>\n        SELECT (COUNT(*) as ?triples) (COUNT(DISTINCT ?s) as ?subjects) (COUNT(DISTINCT ?p) as ?predicates)\n        FROM <" ++ graphUri ++ str ">\n        WHERE \x7b\n          ?s ?p ?o .\n        \x7d\n      "

/-- Per-graph ontology-class query (src/index.ts lines 355-369). -/
def graphOntologyQuery (graphUri : Str) : Str :=
  str "\n        PREFIX rdf: <http://www.w3.org/1999/02/22-rdf-syntax-ns#>\n        PREFIX rdfs: <http://www.w3.org/2000/01/rdf-schema#>\n        PREFIX owl: <http://www.w3.org/2002/07/owl#>\n        SELECT DISTINCT ?class\n        FROM <" ++ graphUri ++ str ">\n        WHERE \x7b\n          \x7b\n            ?class a rdfs:Class .\n          \x7d UNION \x7b\n            ?class a owl:Class .\n          \x7d\n        \x7d\n        LIMIT 20\n      "

/-- Whitespace tokenisation helper: accumulates the current token in
reverse. -/
def wsSplitAux : Str → Str → List Str
  | [], acc => if acc = [] then [] else [acc.reverse]
  | c :: t, acc =>
    if c.isWhitespace then
      if acc = [] then wsSplitAux t [] else acc.reverse :: wsSplitAux t []
    else wsSplitAux t (c :: acc)

/-- Whitespace-separated tokens of a string. -/
def wsSplit (s : Str) : List Str := wsSplitAux s []

/-- C2 (counterexample): the query string of the listGraphs tool branch
is not identical to the graph-discovery query string of the
resource-listing handler; the two template literals are indented
differently. -/
theorem c2_counterexample : listGraphsToolQuery ≠ enumGraphsQuery := by
  decide

/-- C2 (amended): the listGraphs tool issues the same distinct-graph
query as the resource-listing path up to whitespace: the two strings
differ only in indentation, so their whitespace-separated token
sequences coincide. -/
theorem c2_same_query_up_to_whitespace :
    wsSplit listGraphsToolQuery = wsSplit enumGraphsQuery ∧
    listGraphsToolQuery ≠ enumGraphsQuery := by
  exact ⟨by decide, by decide⟩

/-- Witness for C4 at a concrete query containing a FROM clause. -/
theorem c4_rewrite_idempotent_witness :
    rewrite (rewrite (str "SELECT * FROM <urn:x> WHERE \x7b ?s \x7d") (some (str "urn:g")))
        (some (str "urn:g")) =
      rewrite (str "SELECT * FROM <urn:x> WHERE \x7b ?s \x7d") (some (str "urn:g")) :=
  c4_rewrite_idempotent (str "SELECT * FROM <urn:x> WHERE \x7b ?s \x7d")
    (some (str "urn:g")) (by decide)

/-! Percent-encoding, translated from the JavaScript encodeURIComponent
and decodeURIComponent built-ins used by the listing and reading
handlers. -/

/-- Uppercase hexadecimal digit, as JavaScript percent-encoding emits. -/
def hexDigitChar (n : Nat) : Char :=
  if n < 10 then Char.ofNat (48 + n) else Char.ofNat (55 + n)

/-- UTF-8 byte sequence of one character. -/
def utf8Bytes (c : Char) : List Nat :=
  let n := c.toNat
  if n < 128 then [n]
  else if n < 2048 then [192 + n / 64, 128 + n % 64]
  else if n < 65536 then [224 + n / 4096, 128 + (n / 64) % 64, 128 + n % 64]
  else [240 + n / 262144, 128 + (n / 4096) % 64, 128 + (n / 64) % 64, 128 + n % 64]

/-- Characters that encodeURIComponent leaves unescaped: ASCII letters,
digits, and the marks - _ . ! ~ * ' ( ). -/
def isURIUnreserved (c : Char) : Bool :=
  decide ((48 ≤ c.toNat ∧ c.toNat ≤ 57) ∨ (65 ≤ c.toNat ∧ c.toNat ≤ 90) ∨
    (97 ≤ c.toNat ∧ c.toNat ≤ 122) ∨
    c.toNat ∈ ([33, 39, 40, 41, 42, 45, 46, 95, 126] : List Nat))

/-- Model of encodeURIComponent: unreserved characters pass through,
every other character is replaced by the percent-encoding of its UTF-8
bytes. -/
def encodeURIComponent (s : Str) : Str :=
  s.flatMap (fun c =>
    if isURIUnreserved c then [c]
    else (utf8Bytes c).flatMap
      (fun b => [Char.ofNat 37, hexDigitChar (b / 16), hexDigitChar (b % 16)]))

/-- Value of one hexadecimal digit character. -/
def hexVal (c : Char) : Option Nat :=
  let n := c.toNat
  if 48 ≤ n ∧ n ≤ 57 then some (n - 48)
  else if 65 ≤ n ∧ n ≤ 70 then some (n - 55)
  else if 97 ≤ n ∧ n ≤ 102 then some (n - 87)
  else none

/-- Byte stream of a percent-encoded string: a percent sign must be
followed by two hexadecimal digits (none models the URIError thrown
otherwise); any other character contributes its UTF-8 bytes. -/
def percentDecodeBytes : Str → Option (List Nat)
  | [] => some []
  | c :: rest =>
    if c.toNat = 37 then
      match rest with
      | h1 :: h2 :: rest2 =>
        match hexVal h1, hexVal h2 with
        | some a, some b => (percentDecodeBytes rest2).map (fun bs => (16 * a + b) :: bs)
        | _, _ => none
      | _ => none
    else (percentDecodeBytes rest).map (fun bs => utf8Bytes c ++ bs)

/-- Whether a byte is a UTF-8 continuation byte. -/
def isContByte (b : Nat) : Bool := decide (128 ≤ b ∧ b < 192)

/-- UTF-8 decoding of a byte stream; none models the URIError thrown by
decodeURIComponent on a malformed, overlong, surrogate or out-of-range
sequence. -/
def utf8Decode : List Nat → Option Str
  | [] => some []
  | b :: rest =>
    if b < 128 then (utf8Decode rest).map (fun s => Char.ofNat b :: s)
    else if 192 ≤ b ∧ b < 224 then
      match rest with
      | b2 :: rest2 =>
        if isContByte b2 then
          let cp := (b - 192) * 64 + (b2 - 128)
          if 128 ≤ cp then (utf8Decode rest2).map (fun s => Char.ofNat cp :: s)
          else none
        else none
      | [] => none
    else if 224 ≤ b ∧ b < 240 then
      match rest with
      | b2 :: b3 :: rest2 =>
        if isContByte b2 && isContByte b3 then
          let cp := (b - 224) * 4096 + (b2 - 128) * 64 + (b3 - 128)
          if 2048 ≤ cp ∧ (cp < 55296 ∨ 57344 ≤ cp) then
            (utf8Decode rest2).map (fun s => Char.ofNat cp :: s)
          else none
        else none
      | _ => none
    else if 240 ≤ b ∧ b < 248 then
      match rest with
      | b2 :: b3 :: b4 :: rest2 =>
        if isContByte b2 && isContByte b3 && isContByte b4 then
          let cp := (b - 240) * 262144 + (b2 - 128) * 4096 + (b3 - 128) * 64 + (b4 - 128)
          if 65536 ≤ cp ∧ cp < 1114112 then
            (utf8Decode rest2).map (fun s => Char.ofNat cp :: s)
          else none
        else none
      | _ => none
    else none

/-- Model of decodeURIComponent: percent sequences are decoded to bytes
and the byte stream is read back as UTF-8. -/
def decodeURIComponent (s : Str) : Option Str :=
  (percentDecodeBytes s).bind utf8Decode

/-! Resource listing (ListResourcesRequestSchema handler, src/index.ts
lines 128-181). -/

/-- One resource descriptor of the listing response. -/
structure Resource where
  uri : Str
  mimeType : Str
  name : Str
deriving DecidableEq

/-- Href of a relative reference resolved against the resource base URL
(the configured endpoint with the graphdb scheme).  The base has the
root path, so new URL(rel, base) concatenates the base href, ending in
a slash, with the relative path. -/
def urlHref (base rel : Str) : Str := base ++ rel

/-- Extraction of the graph variable value from every row of the
discovery result, as the handler's map over bindings does with
binding.graph.value; a row without the graph key makes that member read
throw, modelled by none (the surrounding catch then yields the empty
listing). -/
def graphValues (r : SparqlResults) : Option (List Str) :=
  r.bindings.mapM (fun b => (bindingGet b (str "graph")).map (fun v => v.value))

/-- ListResourcesRequestSchema handler: with no configured repository
the listing is empty; otherwise the graph-discovery query runs and on
success the four fixed view descriptors are followed by one descriptor
per discovered graph; any failure degrades to the empty listing. -/
def listResources (base repository : Str)
    (exec : Str → Except Str SparqlResults) : List Resource :=
  if repository = [] then []
  else
    match exec enumGraphsQuery with
    | .error _ => []
    | .ok r =>
      match graphValues r with
      | none => []
      | some gs =>
        [ ⟨urlHref base (str "repository/" ++ repository ++ str "/classes"),
            str "application/json",
            str "Repository \x27" ++ repository ++ str "\x27 class list"⟩,
          ⟨urlHref base (str "repository/" ++ repository ++ str "/predicates"),
            str "application/json",
            str "Repository \x27" ++ repository ++ str "\x27 predicates"⟩,
          ⟨urlHref base (str "repository/" ++ repository ++ str "/stats"),
            str "application/json",
            str "Repository \x27" ++ repository ++ str "\x27 statistics"⟩,
          ⟨urlHref base (str "repository/" ++ repository ++ str "/sample"),
            str "application/json",
            str "Repository \x27" ++ repository ++ str "\x27 sample data"⟩ ] ++
        gs.map (fun g =>
          ⟨urlHref base (str "repository/" ++ repository ++ str "/graph/" ++ encodeURIComponent g),
            str "application/json",
            str "Graph \x27" ++ g ++ str "\x27"⟩)

/-- C5: when no repository name is configured, or the graph-discovery
query fails, the resource listing is the empty list; the listing
operation itself never propagates a failure (its result type is a plain
list). -/
theorem c5_listing_degrades_to_empty (base repository : Str)
    (exec : Str → Except Str SparqlResults)
    (h : repository = [] ∨ ∃ e, exec enumGraphsQuery = Except.error e) :
    listResources base repository exec = [] := by
  rcases h with h | ⟨e, he⟩
  · simp [listResources, h]
  · by_cases hr : repository = []
    · simp [listResources, hr]
    · simp [listResources, hr, he]

/-- Witness for C5: a failing executor yields the empty listing. -/
theorem c5_listing_degrades_to_empty_witness :
    listResources (str "graphdb://localhost:7200/") (str "test")
      (fun _ => Except.error (str "GraphDB query failed: 500 Server Error")) = [] :=
  c5_listing_degrades_to_empty (str "graphdb://localhost:7200/") (str "test")
    (fun _ => Except.error (str "GraphDB query failed: 500 Server Error"))
    (Or.inr ⟨str "GraphDB query failed: 500 Server Error", rfl⟩)

/-- C6: when the repository is configured and the graph-discovery query
succeeds with rows whose graph values are gs, the listing has exactly
4 + gs.length descriptors: the class-list, predicate-list, statistics
and sample descriptors in that order, followed by one graph descriptor
per discovered graph in the order the query returned them. -/
theorem c6_listing_shape (base repository : Str)
    (exec : Str → Except Str SparqlResults) (r : SparqlResults) (gs : List Str)
    (hrepo : repository ≠ [])
    (hexec : exec enumGraphsQuery = Except.ok r)
    (hgs : graphValues r = some gs) :
    listResources base repository exec =
      [ ⟨urlHref base (str "repository/" ++ repository ++ str "/classes"),
          str "application/json",
          str "Repository \x27" ++ repository ++ str "\x27 class list"⟩,
        ⟨urlHref base (str "repository/" ++ repository ++ str "/predicates"),
          str "application/json",
          str "Repository \x27" ++ repository ++ str "\x27 predicates"⟩,
        ⟨urlHref base (str "repository/" ++ repository ++ str "/stats"),
          str "application/json",
          str "Repository \x27" ++ repository ++ str "\x27 statistics"⟩,
        ⟨urlHref base (str "repository/" ++ repository ++ str "/sample"),
          str "application/json",
          str "Repository \x27" ++ repository ++ str "\x27 sample data"⟩ ] ++
      gs.map (fun g =>
        ⟨urlHref base (str "repository/" ++ repository ++ str "/graph/" ++ encodeURIComponent g),
          str "application/json",
          str "Graph \x27" ++ g ++ str "\x27"⟩) ∧
    (listResources base repository exec).length = 4 + gs.length := by
  constructor
  · simp [listResources, hrepo, hexec, hgs]
  · simp only [listResources, hrepo, hexec, hgs, if_neg hrepo]
    simp [List.length_append, List.length_map]
    omega

/-- Witness result envelope for C6: two rows binding the graph variable
to urn:a and urn:b. -/
def c6WitnessResults : SparqlResults :=
  ⟨[str "graph"],
    [[(str "graph", ⟨str "uri", str "urn:a", none, none⟩)],
     [(str "graph", ⟨str "uri", str "urn:b", none, none⟩)]]⟩

/-- Witness executor for C6. -/
def c6WitnessExec : Str → Except Str SparqlResults :=
  fun q => if q = enumGraphsQuery then Except.ok c6WitnessResults
    else Except.error (str "unexpected query")

/-- Witness for C6: on discovered graphs urn:a and urn:b the listing
has six descriptors, the four fixed ones then the two graphs in query
order. -/
theorem c6_listing_shape_witness :
    listResources (str "graphdb://localhost:7200/") (str "test") c6WitnessExec =
      [ ⟨str "graphdb://localhost:7200/repository/test/classes",
          str "application/json", str "Repository \x27test\x27 class list"⟩,
        ⟨str "graphdb://localhost:7200/repository/test/predicates",
          str "application/json", str "Repository \x27test\x27 predicates"⟩,
        ⟨str "graphdb://localhost:7200/repository/test/stats",
          str "application/json", str "Repository \x27test\x27 statistics"⟩,
        ⟨str "graphdb://localhost:7200/repository/test/sample",
          str "application/json", str "Repository \x27test\x27 sample data"⟩,
        ⟨str "graphdb://localhost:7200/repository/test/graph/urn%3Aa",
          str "application/json", str "Graph \x27urn:a\x27"⟩,
        ⟨str "graphdb://localhost:7200/repository/test/graph/urn%3Ab",
          str "application/json", str "Graph \x27urn:b\x27"⟩ ] ∧
    (listResources (str "graphdb://localhost:7200/") (str "test") c6WitnessExec).length = 4 + 2 := by
  have h := c6_listing_shape (str "graphdb://localhost:7200/") (str "test")
    c6WitnessExec c6WitnessResults [str "urn:a", str "urn:b"]
    (by decide) rfl (by decide)
  exact ⟨h.1.trans (by decide), h.2⟩

/-! Statistics view (ReadResourceRequestSchema handler, STATS_PATH
branch, src/index.ts lines 266-308). -/

/-- Resolution of the statistics view: the repository-count query runs,
then the graph-count query; their first rows are merged into the inner
object of the response (the source wraps it under a statistics key) by
spreading the first row of the first result and then assigning the
graphs property from the first row of the second result.  Reading the
graphs member of an absent first row throws, modelled by an error; a
missing graphs key on a present row reads as the undefined value and is
assigned as such. -/
def readStats (exec : Str → Except Str SparqlResults) : Except Str Obj :=
  match exec statsCountQuery with
  | .error e => .error e
  | .ok r =>
    match exec graphCountQuery with
    | .error e => .error e
    | .ok gr =>
      match gr.bindings.head? with
      | none => .error (str "TypeError: Cannot read properties of undefined (reading \x27graphs\x27)")
      | some gb =>
        let spread : Obj :=
          match r.bindings.head? with
          | none => []
          | some b0 => bindingToObj b0
        let gv : JsVal :=
          match bindingGet gb (str "graphs") with
          | none => JsVal.undef
          | some v => JsVal.sval v
        .ok (objSet spread (str "graphs") gv)

/-- C7: the statistics view consults the executor only at the two fixed
query strings, and for every pair of successful results whose second
result has a first row carrying a graphs value v, the merged object's
graphs field equals v, no matter what the first result's row contains
(a graphs key there included). -/
theorem c7_stats_merge (exec : Str → Except Str SparqlResults)
    (r gr : SparqlResults) (gb : Binding) (v : SparqlValue)
    (h1 : exec statsCountQuery = Except.ok r)
    (h2 : exec graphCountQuery = Except.ok gr)
    (hrow : gr.bindings.head? = some gb)
    (hv : bindingGet gb (str "graphs") = some v) :
    (∃ o : Obj, readStats exec = Except.ok o ∧
      objGet o (str "graphs") = some (JsVal.sval v)) ∧
    (∀ exec2 : Str → Except Str SparqlResults,
      exec2 statsCountQuery = exec statsCountQuery →
      exec2 graphCountQuery = exec graphCountQuery →
      readStats exec2 = readStats exec) := by
  constructor
  · have hs : readStats exec =
        Except.ok (objSet
          (match r.bindings.head? with
            | none => ([] : Obj)
            | some b0 => bindingToObj b0)
          (str "graphs") (JsVal.sval v)) := by
      simp [readStats, h1, h2, hrow, hv]
    exact ⟨_, hs, objGet_objSet _ _ _⟩
  · intro exec2 e1 e2
    unfold readStats
    rw [e1, e2]

/-- Witness first result for C7: its single row itself contains a
graphs key, which the merge must overwrite. -/
def c7WitnessCounts : SparqlResults :=
  ⟨[str "subjects", str "graphs"],
    [[(str "subjects", ⟨str "literal", str "10", some (str "http://www.w3.org/2001/XMLSchema#integer"), none⟩),
      (str "graphs", ⟨str "literal", str "999", none, none⟩)]]⟩

/-- Witness second result for C7: a single row with the graph count. -/
def c7WitnessGraphCount : SparqlResults :=
  ⟨[str "graphs"],
    [[(str "graphs", ⟨str "literal", str "2", some (str "http://www.w3.org/2001/XMLSchema#integer"), none⟩)]]⟩

/-- Witness executor for C7. -/
def c7WitnessExec : Str → Except Str SparqlResults :=
  fun q => if q = statsCountQuery then Except.ok c7WitnessCounts
    else if q = graphCountQuery then Except.ok c7WitnessGraphCount
    else Except.error (str "unexpected query")

/-- Witness for C7: even though the first query's row binds graphs to
999, the merged object's graphs field is the second query's count 2. -/
theorem c7_stats_merge_witness :
    ∃ o : Obj, readStats c7WitnessExec = Except.ok o ∧
      objGet o (str "graphs") =
        some (JsVal.sval ⟨str "literal", str "2", some (str "http://www.w3.org/2001/XMLSchema#integer"), none⟩) :=
  (c7_stats_merge c7WitnessExec c7WitnessCounts c7WitnessGraphCount
    [(str "graphs", ⟨str "literal", str "2", some (str "http://www.w3.org/2001/XMLSchema#integer"), none⟩)]
    ⟨str "literal", str "2", some (str "http://www.w3.org/2001/XMLSchema#integer"), none⟩
    rfl rfl (by decide) (by decide)).1

/-! Graph-detail view (ReadResourceRequestSchema handler, graph branch,
src/index.ts lines 329-394). -/

/-- The composed graph-detail payload: sample rows, the first metadata
row (undefined when the metadata result has no rows), and the ontology
class rows. -/
structure GraphDetail where
  sampleData : List Binding
  metadata : Option Binding
  ontologyClasses : List Binding
deriving DecidableEq

/-- Resolution of the graph-detail view: the sample query runs, then
the metadata query, then the ontology-class query; the ontology query
alone runs inside its own try/catch whose handler substitutes an empty
result, so only its failure is absorbed. -/
def readGraph (exec : Str → Except Str SparqlResults) (graphUri : Str) :
    Except Str GraphDetail :=
  match exec (graphSampleQuery graphUri) with
  | .error e => .error e
  | .ok r =>
    match exec (graphMetadataQuery graphUri) with
    | .error e => .error e
    | .ok mr =>
      let ontologyBindings : List Binding :=
        match exec (graphOntologyQuery graphUri) with
        | .error _ => []
        | .ok orr => orr.bindings
      .ok ⟨r.bindings, mr.bindings.head?, ontologyBindings⟩

/-- C8: a failing ontology-class sub-query is absorbed — the view still
returns the sample rows and metadata row with an empty ontologyClasses
sequence — while a failure of the sample sub-query or of the metadata
sub-query propagates to the caller of resolve. -/
theorem c8_graph_detail_failures (exec : Str → Except Str SparqlResults)
    (graphUri : Str) :
    (∀ r mr e, exec (graphSampleQuery graphUri) = Except.ok r →
      exec (graphMetadataQuery graphUri) = Except.ok mr →
      exec (graphOntologyQuery graphUri) = Except.error e →
      readGraph exec graphUri = Except.ok ⟨r.bindings, mr.bindings.head?, []⟩) ∧
    (∀ e, exec (graphSampleQuery graphUri) = Except.error e →
      readGraph exec graphUri = Except.error e) ∧
    (∀ r e, exec (graphSampleQuery graphUri) = Except.ok r →
      exec (graphMetadataQuery graphUri) = Except.error e →
      readGraph exec graphUri = Except.error e) := by
  refine ⟨?_, ?_, ?_⟩
  · intro r mr e h1 h2 h3
    simp [readGraph, h1, h2, h3]
  · intro e h1
    simp [readGraph, h1]
  · intro r e h1 h2
    simp [readGraph, h1, h2]

/-- Witness sample result for C8. -/
def c8WitnessSample : SparqlResults :=
  ⟨[str "subject", str "predicate", str "object"],
    [[(str "subject", ⟨str "uri", str "urn:s", none, none⟩)]]⟩

/-- Witness metadata result for C8. -/
def c8WitnessMetadata : SparqlResults :=
  ⟨[str "triples"], [[(str "triples", ⟨str "literal", str "1", none, none⟩)]]⟩

/-- Witness executor for C8: sample and metadata succeed, the
ontology-class query fails. -/
def c8WitnessExec : Str → Except Str SparqlResults :=
  fun q => if q = graphSampleQuery (str "urn:a") then Except.ok c8WitnessSample
    else if q = graphMetadataQuery (str "urn:a") then Except.ok c8WitnessMetadata
    else Except.error (str "GraphDB query failed: 500 Server Error")

/-- Witness for C8: with the ontology query failing, the view returns
the sample rows and metadata row and an empty ontologyClasses list. -/
theorem c8_graph_detail_failures_witness :
    readGraph c8WitnessExec (str "urn:a") =
      Except.ok ⟨c8WitnessSample.bindings, c8WitnessMetadata.bindings.head?, []⟩ :=
  (c8_graph_detail_failures c8WitnessExec (str "urn:a")).1
    c8WitnessSample c8WitnessMetadata (str "GraphDB query failed: 500 Server Error")
    rfl rfl rfl

/-! Resource address parsing and read dispatch
(ReadResourceRequestSchema handler, src/index.ts lines 184-401). -/

/-- The path-parsing loop (src/index.ts lines 194-202): every path
segment is scanned in order; a repository marker with a following
segment captures that segment as the repository name, a graph marker
with a following segment captures its percent-decoding as the graph
identifier (a malformed encoding raises URIError, modelled by none),
and a segment equal to one of the four view-kind tokens sets the
resource type.  Captured segments are not skipped: they are scanned on
their own turn as well, exactly as the index-based loop does. -/
def parseComponents : List Str → (Str × Str × Str) → Option (Str × Str × Str)
  | [], st => some st
  | c :: rest, (repoName, graphUri, resourceType) =>
    let st? : Option (Str × Str × Str) :=
      if c = str "repository" then
        match rest.head? with
        | some nxt => some (nxt, graphUri, resourceType)
        | none => some (repoName, graphUri, resourceType)
      else if c = str "graph" then
        match rest.head? with
        | some nxt =>
          match decodeURIComponent nxt with
          | some d => some (repoName, d, resourceType)
          | none => none
        | none => some (repoName, graphUri, resourceType)
      else if c = str "classes" ∨ c = str "predicates" ∨ c = str "sample" ∨ c = str "stats" then
        some (repoName, graphUri, c)
      else some (repoName, graphUri, resourceType)
    match st? with
    | some st2 => parseComponents rest st2
    | none => none

/-- A read-resource response payload, one variant per view shape the
handler serialises. -/
inductive Payload where
  | results : SparqlResults → Payload
  | stats : Obj → Payload
  | graphDetail : GraphDetail → Payload
deriving DecidableEq

/-- The view dispatch chain of the read handler (src/index.ts lines
204-396), applied to the parsed address parts: missing repository name
is an error; then the four fixed view branches are tested in source
order, and only when none matches is a nonempty graph identifier
served as the graph-detail view; no recognised part is an error. -/
def readResourceCore (exec : Str → Except Str SparqlResults)
    (repoName graphUri resourceType : Str) : Except Str Payload :=
  if repoName = [] then .error (str "Invalid resource URI: missing repository name")
  else if resourceType = str "classes" then (exec classListQuery).map Payload.results
  else if resourceType = str "predicates" then (exec predicatesQuery).map Payload.results
  else if resourceType = str "stats" then (readStats exec).map Payload.stats
  else if resourceType = str "sample" then (exec sampleQuery).map Payload.results
  else if graphUri ≠ [] then (readGraph exec graphUri).map Payload.graphDetail
  else .error (str "Invalid resource URI")

/-- The full read-resource operation on a path-component list: parse,
then dispatch. -/
def readResource (exec : Str → Except Str SparqlResults)
    (pathComponents : List Str) : Except Str Payload :=
  match parseComponents pathComponents (str "", str "", str "") with
  | none => .error (str "URIError: URI malformed")
  | some (repoName, graphUri, resourceType) =>
    readResourceCore exec repoName graphUri resourceType

/-- C9: when the parsed address carries one of the four fixed view-kind
tokens, reading serves that fixed view and the graph identifier is
ignored: the result coincides with dispatching the same address with an
empty graph identifier, for every parsed graph identifier. -/
theorem c9_fixed_view_wins (exec : Str → Except Str SparqlResults)
    (pathComponents : List Str) (repoName graphUri resourceType : Str)
    (hparse : parseComponents pathComponents (str "", str "", str "") =
      some (repoName, graphUri, resourceType))
    (hty : resourceType = str "classes" ∨ resourceType = str "predicates" ∨
      resourceType = str "stats" ∨ resourceType = str "sample") :
    readResource exec pathComponents =
      readResourceCore exec repoName (str "") resourceType := by
  unfold readResource
  rw [hparse]
  rcases hty with h | h | h | h <;> subst h <;> by_cases hr : repoName = [] <;>
    simp [readResourceCore, hr]

/-- Witness executor for C9: every query fails, so the served branch is
visible in the error message. -/
def c9WitnessExec : Str → Except Str SparqlResults :=
  fun q => if q = statsCountQuery then Except.error (str "stats branch")
    else Except.error (str "other branch")

/-- Witness for C9: a path naming both the stats view and a graph
identifier resolves through the stats branch, identically to the same
address without the graph identifier. -/
theorem c9_fixed_view_wins_witness :
    readResource c9WitnessExec
        [str "", str "repository", str "repo1", str "graph", str "urn%3Ag", str "stats"] =
      readResourceCore c9WitnessExec (str "repo1") (str "") (str "stats") :=
  c9_fixed_view_wins c9WitnessExec
    [str "", str "repository", str "repo1", str "graph", str "urn%3Ag", str "stats"]
    (str "repo1") (str "urn:g") (str "stats") (by decide)
    (Or.inr (Or.inr (Or.inl rfl)))

/-! Tool dispatcher (CallToolRequestSchema handler, src/index.ts lines
444-548). -/

/-- Arguments of a tool invocation: each may be absent, and absent or
non-string values read as undefined through the unchecked casts of the
handler. -/
structure ToolArgs where
  query : Option Str
  graph : Option Str
  format : Option Str
deriving DecidableEq

/-- Outcome of a tool call: an in-band ToolResult with its content text
and isError flag, or an exception escaping the handler as a
protocol-level fault. -/
inductive CallOutcome where
  | result : Str → Bool → CallOutcome
  | fault : Str → CallOutcome
deriving DecidableEq

/-- JavaScript truthiness of an optional string: present and nonempty. -/
def truthy : Option Str → Bool
  | none => false
  | some s => decide (s ≠ [])

/-- The graph-scoping step as the handler runs it, before its try
block: with the query argument absent and the graph argument truthy,
the member read sparqlQuery.includes throws a TypeError that escapes
the handler; with the graph argument falsy the undefined query is
passed on untouched. -/
def rewriteStep (q g : Option Str) : Except Str (Option Str) :=
  match q with
  | some s => .ok (some (rewrite s g))
  | none =>
    if truthy g then
      .error (str "TypeError: Cannot read properties of undefined (reading \x27includes\x27)")
    else .ok none

/-- Accept header of the JSON results encoding. -/
def jsonAccept : Str := str "application/sparql-results+json"

/-- Accept header of the XML results encoding. -/
def xmlAccept : Str := str "application/sparql-results+xml"

/-- Accept header of the CSV encoding. -/
def csvAccept : Str := str "text/csv"

/-- JSON string quoting used by the serialisation model. -/
def quoteJson (s : Str) : Str := Char.ofNat 34 :: s ++ [Char.ofNat 34]

/-- Serialisation of one RDF term, modelling JSON.stringify up to
formatting (no claim depends on the serialised text). -/
def jsonOfValue (v : SparqlValue) : Str :=
  str "\x7b" ++ quoteJson (str "type") ++ str ":" ++ quoteJson v.type ++ str "," ++
    quoteJson (str "value") ++ str ":" ++ quoteJson v.value ++ str "\x7d"

/-- Serialisation of one binding row. -/
def jsonOfBinding (b : Binding) : Str :=
  str "\x7b" ++
    List.intercalate (str ",")
      (b.map (fun kv => quoteJson kv.1 ++ str ":" ++ jsonOfValue kv.2)) ++
    str "\x7d"

/-- Serialisation of a results envelope, modelling
JSON.stringify(result, null, 2) up to formatting. -/
def jsonStringifyResults (r : SparqlResults) : Str :=
  str "\x7b" ++ quoteJson (str "vars") ++ str ":[" ++
    List.intercalate (str ",") (r.vars.map quoteJson) ++ str "]," ++
    quoteJson (str "bindings") ++ str ":[" ++
    List.intercalate (str ",") (r.bindings.map jsonOfBinding) ++ str "]\x7d"

/-- CallToolRequestSchema handler, parameterised by the two executor
variants: execJson is executeSparqlQuery (typed JSON path) and execRaw
is the inline fetch of the non-JSON path, which returns the response
body as text.  The request body may be absent when the query argument
is absent, hence the optional body argument of both executors.  A falsy
format argument falls back to json; the accept header is chosen from
the format; the graph-scoping step runs before the try block, so its
failure escapes as a fault, while executor failures inside the try are
converted to an isError ToolResult; an unknown tool name is thrown. -/
def callTool
    (execJson : Option Str → Str → Except Str SparqlResults)
    (execRaw : Option Str → Str → Except Str Str)
    (name : Str) (args : ToolArgs) : CallOutcome :=
  if name = str "sparqlQuery" then
    let format : Str :=
      match args.format with
      | some f => if f = [] then str "json" else f
      | none => str "json"
    let acceptHeader : Str :=
      if format = str "xml" then xmlAccept
      else if format = str "csv" then csvAccept
      else jsonAccept
    match rewriteStep args.query args.graph with
    | .error e => .fault e
    | .ok modifiedQuery =>
      if format ≠ str "json" then
        match execRaw modifiedQuery acceptHeader with
        | .ok t => .result t false
        | .error e => .result (str "Error executing query: " ++ e) true
      else
        match execJson modifiedQuery acceptHeader with
        | .ok r => .result (jsonStringifyResults r) false
        | .error e => .result (str "Error executing query: " ++ e) true
  else if name = str "listGraphs" then
    match execJson (some listGraphsToolQuery) jsonAccept with
    | .ok r => .result (jsonStringifyResults r) false
    | .error e => .result (str "Error listing graphs: " ++ e) true
  else .fault (str "Unknown tool: " ++ name)

/-- C1: the claim fails on the code.  For the known tool name
sparqlQuery with a graph argument supplied and the query argument
absent, the graph-scoping step runs before the try block and its
TypeError escapes the dispatcher as a protocol-level fault instead of
being converted to an isError ToolResult, whatever the executors do. -/
theorem c1_rewrite_failure_escapes
    (execJson : Option Str → Str → Except Str SparqlResults)
    (execRaw : Option Str → Str → Except Str Str) :
    callTool execJson execRaw (str "sparqlQuery")
        ⟨none, some (str "urn:g"), none⟩ =
      CallOutcome.fault
        (str "TypeError: Cannot read properties of undefined (reading \x27includes\x27)") := by
  rfl

/-- Witness JSON executor for C10. -/
def c10ExecJson : Option Str → Str → Except Str SparqlResults :=
  fun _ _ => Except.ok ⟨[], []⟩

/-- Witness raw executor for C10: its passthrough body is the marker
text RAWBODY. -/
def c10ExecRaw : Option Str → Str → Except Str Str :=
  fun _ _ => Except.ok (str "RAWBODY")

/-- C10 (counterexample): the empty string is a present format argument
that is neither json, xml nor csv, yet the dispatcher falls back to the
typed JSON path (the falsy format defaults to json), so the result is
the serialised envelope rather than the raw passthrough body. -/
theorem c10_counterexample :
    (str "" ≠ str "json" ∧ str "" ≠ str "xml" ∧ str "" ≠ str "csv") ∧
    callTool c10ExecJson c10ExecRaw (str "sparqlQuery")
        ⟨some (str "SELECT * WHERE \x7b ?s \x7d"), none, some (str "")⟩ =
      CallOutcome.result (jsonStringifyResults ⟨[], []⟩) false ∧
    callTool c10ExecJson c10ExecRaw (str "sparqlQuery")
        ⟨some (str "SELECT * WHERE \x7b ?s \x7d"), none, some (str "")⟩ ≠
      CallOutcome.result (str "RAWBODY") false := by
  refine ⟨⟨by decide, by decide, by decide⟩, rfl, by decide⟩

/-- C10 (amended): for every sparqlQuery invocation whose format
argument is present, nonempty, and neither json, xml nor csv, the
dispatcher takes the raw-passthrough path — the outcome is the raw
executor's body as literal text, or the converted error — and the
accept header it sends is the JSON results encoding. -/
theorem c10_unknown_format_raw_path
    (execJson : Option Str → Str → Except Str SparqlResults)
    (execRaw : Option Str → Str → Except Str Str)
    (q : Str) (g : Option Str) (f : Str)
    (hne : f ≠ []) (hj : f ≠ str "json") (hx : f ≠ str "xml") (hc : f ≠ str "csv") :
    callTool execJson execRaw (str "sparqlQuery") ⟨some q, g, some f⟩ =
      match execRaw (some (rewrite q g)) jsonAccept with
      | .ok t => CallOutcome.result t false
      | .error e => CallOutcome.result (str "Error executing query: " ++ e) true := by
  unfold callTool rewriteStep
  simp [hne, hj, hx, hc]

/-- Witness for C10 (amended) at the concrete unknown format turtle:
the outcome is the raw executor's passthrough body. -/
theorem c10_unknown_format_raw_path_witness :
    callTool c10ExecJson c10ExecRaw (str "sparqlQuery")
        ⟨some (str "SELECT * WHERE \x7b ?s \x7d"), none, some (str "turtle")⟩ =
      CallOutcome.result (str "RAWBODY") false := by
  have h := c10_unknown_format_raw_path c10ExecJson c10ExecRaw
    (str "SELECT * WHERE \x7b ?s \x7d") none (str "turtle")
    (by decide) (by decide) (by decide) (by decide)
  exact h.trans rfl

end GraphDB
